import Mathlib

/-!
# Verification of the ledger-core admission pipeline

A shallow embedding of the three source files of the repository
(`src/core/event.rs`, `src/compliance/validator.rs`, `src/core/ledger.rs`)
together with theorems settling the frozen claims about the spec.

Modelling conventions:
* `serde_json::Value` is modelled by the inductive `Json`.
* `rust_decimal::Decimal` (an arbitrary-precision decimal) is modelled by `ℚ`.
* `chrono::DateTime<Utc>` is modelled by `Nat` (an abstract instant).
* Rust `HashMap` registries are modelled as association lists; `HashMap`
  iteration order is unspecified in Rust, the model fixes list order.
  No theorem below depends on a particular iteration order of `validate`
  beyond aggregation happening in iteration order.
* Fallible Rust code (`Result`, `anyhow::Result`) is modelled with `Except`.
-/

namespace LedgerCore

/-- Model of `serde_json::Value`. -/
inductive Json where
  | null : Json
  | bool : Bool → Json
  | str : String → Json
  | num : ℚ → Json
  | arr : List Json → Json
  | obj : List (String × Json) → Json

/-! ## Event model (`src/core/event.rs`) -/

/-- `AlertSeverity` from `event.rs`. -/
inductive AlertSeverity where
  | Low | Medium | High | Critical
deriving DecidableEq, Repr

/-- `AccountType` from `event.rs`. -/
inductive AccountType where
  | Asset | Liability | Equity | Revenue | Expense
deriving DecidableEq, Repr

/-- `ComplianceLevel` from `event.rs`. -/
inductive ComplianceLevel where
  | LowRisk | MediumRisk | HighRisk | Sanctioned
deriving DecidableEq, Repr

/-- `AdjustmentReason` from `event.rs`. -/
inductive AdjustmentReason where
  | Correction | WriteOff | Revaluation | Regulatory
deriving DecidableEq, Repr

/-- `Money` from `event.rs`: amount is a decimal with declared constraint
`range(min = 0)`, currency code has declared constraint `length(equal = 3)`. -/
structure Money where
  amount : ℚ
  currency_code : String
  precision : Nat

/-- `FinancialTransaction` from `event.rs`. Declared constraints:
`transaction_id` has `length(min = 1)`, `amount` is nested-validated. -/
structure FinancialTransaction where
  transaction_id : String
  from_account : String
  to_account : String
  amount : Money
  currency : String
  description : String
  metadata : Json
  timestamp : Nat
  tags : List String

/-- `ComplianceAlert` from `event.rs` (no declared validation constraints). -/
structure ComplianceAlert where
  alert_id : String
  rule_id : String
  severity : AlertSeverity
  description : String
  affected_entities : List String
  evidence : Json
  timestamp : Nat

/-- `AccountCreation` from `event.rs`. Declared constraints:
`account_id` has `length(min = 1)`, `initial_balance` is nested-validated. -/
structure AccountCreation where
  account_id : String
  account_type : AccountType
  owner_id : String
  initial_balance : Money
  compliance_level : ComplianceLevel
  created_at : Nat
  metadata : Json

/-- `BalanceAdjustment` from `event.rs` (no declared validation constraints). -/
structure BalanceAdjustment where
  adjustment_id : String
  account_id : String
  reason : AdjustmentReason
  amount : Money
  reference : String
  authorized_by : String
  timestamp : Nat

/-- `AuditLog` from `event.rs` (no declared validation constraints). -/
structure AuditLog where
  log_id : String
  action : String
  actor : String
  resource : String
  changes : Json
  ip_address : Option String
  user_agent : Option String
  timestamp : Nat

/-- The closed event union `LedgerEvent` from `event.rs`. -/
inductive LedgerEvent where
  | FinancialTransaction (tx : FinancialTransaction)
  | ComplianceAlert (alert : ComplianceAlert)
  | AccountCreation (acct : AccountCreation)
  | BalanceAdjustment (adj : BalanceAdjustment)
  | AuditLog (log : AuditLog)

/-- The `validator`-crate derived check for `Money`: the declared field
constraints are `amount ≥ 0` and `currency_code` of length exactly 3. -/
def Money.validate (m : Money) : Except String Unit :=
  if decide (0 ≤ m.amount) && (m.currency_code.length == 3) then
    Except.ok ()
  else
    Except.error "Money: amount range(min 0) or currency_code length(equal 3)"

/-- The `validator`-crate derived check for `FinancialTransaction`:
`transaction_id` of length ≥ 1 and the nested `amount` valid. -/
def FinancialTransaction.validate (tx : FinancialTransaction) : Except String Unit :=
  if tx.transaction_id.length < 1 then
    Except.error "transaction_id: length(min 1)"
  else
    tx.amount.validate

/-- The `validator`-crate derived check for `AccountCreation`:
`account_id` of length ≥ 1 and the nested `initial_balance` valid. -/
def AccountCreation.validate (acct : AccountCreation) : Except String Unit :=
  if acct.account_id.length < 1 then
    Except.error "account_id: length(min 1)"
  else
    acct.initial_balance.validate

/-- `LedgerEvent::validate` (`event.rs` lines 25-33): variant-specific,
only `FinancialTransaction` and `AccountCreation` are checked, every other
variant is `Ok(())`. -/
def LedgerEvent.validate : LedgerEvent → Except String Unit
  | .FinancialTransaction tx =>
      match tx.validate with
      | .ok () => .ok ()
      | .error e => .error ("Financial transaction validation failed: " ++ e)
  | .AccountCreation acct =>
      match acct.validate with
      | .ok () => .ok ()
      | .error e => .error ("Account creation validation failed: " ++ e)
  | _ => .ok ()

/-- `LedgerEvent::get_entity_id` (`event.rs` lines 35-43). -/
def LedgerEvent.get_entity_id : LedgerEvent → String
  | .FinancialTransaction tx => tx.transaction_id
  | .ComplianceAlert alert => alert.alert_id
  | .AccountCreation acct => acct.account_id
  | .BalanceAdjustment adj => adj.adjustment_id
  | .AuditLog log => log.log_id

/-! ## Rule engine (`src/compliance/validator.rs`) -/

/-- `RuleSeverity` from `validator.rs` (the source derives only `PartialEq`;
the total order `Warning < Error < Critical` is stated in the spec's data
model and realised below by `RuleSeverity.rank`). -/
inductive RuleSeverity where
  | Warning | Error | Critical
deriving DecidableEq, Repr

/-- Modelled from the spec: the total order on severities,
`Warning < Error < Critical` (§3 Data Model). The source derives no `Ord`
for `RuleSeverity`; the rank realises the spec's ordering. -/
def RuleSeverity.rank : RuleSeverity → Nat
  | .Warning => 0
  | .Error => 1
  | .Critical => 2

/-- Modelled from the spec: the default blocking threshold severity is
`Error` (§4.1). -/
def defaultBlockingThreshold : RuleSeverity := .Error

/-- `Violation` from `validator.rs`. -/
structure Violation where
  rule_id : String
  severity : RuleSeverity
  message : String
  evidence : Json

/-- `ValidationContext` from `validator.rs`. -/
structure ValidationContext where
  additional_data : List (String × Json)

/-- `ValidationContext::new`. -/
def ValidationContext.new : ValidationContext := ⟨[]⟩

/-- `ValidationContext::with_data`. -/
def ValidationContext.with_data (ctx : ValidationContext) (key : String)
    (value : Json) : ValidationContext :=
  ⟨ctx.additional_data ++ [(key, value)]⟩

/-- The `Rule` trait from `validator.rs`: capability set
`{evaluate, get_rule_id, get_severity}`. `evaluate` may fail with an
internal error (`anyhow::Result`), modelled by `Except String`. -/
structure Rule where
  evaluate : LedgerEvent → ValidationContext → Except String (List Violation)
  get_rule_id : String
  get_severity : RuleSeverity

/-- `ComplianceValidator` from `validator.rs`: `rules` is the
`HashMap<String, Box<dyn Rule>>` keyed by rule id, `rule_sets` the
`HashMap<String, Vec<String>>`; both modelled as association lists. -/
structure ComplianceValidator where
  rules : List (String × Rule)
  rule_sets : List (String × List String)

/-- `ComplianceValidator::new`. -/
def ComplianceValidator.new : ComplianceValidator := ⟨[], []⟩

/-- `HashMap::insert` on an association list: replaces the entry with the
same key if present, otherwise appends. -/
def assocInsert {α : Type} (m : List (String × α)) (k : String) (v : α) :
    List (String × α) :=
  if m.any (fun p => p.1 == k) then
    m.map (fun p => if p.1 == k then (k, v) else p)
  else
    m ++ [(k, v)]

/-- `ComplianceValidator::add_rule`: inserts under the rule's own id,
replacing any prior rule with that id. -/
def ComplianceValidator.add_rule (v : ComplianceValidator) (rule : Rule) :
    ComplianceValidator :=
  { v with rules := assocInsert v.rules rule.get_rule_id rule }

/-- `ComplianceValidator::create_rule_set`. -/
def ComplianceValidator.create_rule_set (v : ComplianceValidator)
    (name : String) (rule_ids : List String) : ComplianceValidator :=
  { v with rule_sets := assocInsert v.rule_sets name rule_ids }

/-- The synthetic violation `validate` pushes when one rule's evaluation
itself returns an internal error (`validator.rs` lines 46-53); the rule id
recorded is the rule's own `get_rule_id`. -/
def syntheticViolation (rid : String) (e : String) : Violation :=
  { rule_id := rid
    severity := .Critical
    message := "Rule evaluation error: " ++ e
    evidence := Json.obj [("error", Json.str e)] }

/-- The loop body of `ComplianceValidator::validate` (`validator.rs`
lines 43-55): every registered rule is evaluated; an `Ok` contributes its
violations, an `Err` contributes one synthetic `Critical` violation; the
per-rule contributions are appended in iteration order. -/
def runRules (event : LedgerEvent) (ctx : ValidationContext) :
    List (String × Rule) → List Violation
  | [] => []
  | (_, rule) :: rest =>
      (match rule.evaluate event ctx with
       | .ok rule_violations => rule_violations
       | .error e => [syntheticViolation rule.get_rule_id e])
      ++ runRules event ctx rest

/-- `ComplianceValidator::validate` (`validator.rs` lines 38-58): applies
all registered rules and returns `Ok` with the aggregated violations. -/
def ComplianceValidator.validate (v : ComplianceValidator)
    (event : LedgerEvent) : Except String (List Violation) :=
  .ok (runRules event ValidationContext.new v.rules)

/-- The loop body of `ComplianceValidator::validate_with_rule_set`
(`validator.rs` lines 69-83), instrumented: the first component of the
result records, in order, the ids of the rules whose `evaluate` the loop
actually invokes — an id listed in the set is invoked iff `self.rules.get`
finds it (`if let Some(rule)`), otherwise the loop silently moves on.
The second component is the aggregated violations; an `Err` from a rule
contributes one synthetic `Critical` violation recorded under the listed
id (the map key), mirroring `rule_id.clone()` in the source. -/
def runRuleSet (v : ComplianceValidator) (event : LedgerEvent)
    (ctx : ValidationContext) : List String → List String × List Violation
  | [] => ([], [])
  | rule_id :: rest =>
      match v.rules.lookup rule_id with
      | some rule =>
          let contribution :=
            match rule.evaluate event ctx with
            | .ok rule_violations => rule_violations
            | .error e => [syntheticViolation rule_id e]
          let (t, vs) := runRuleSet v event ctx rest
          (rule_id :: t, contribution ++ vs)
      | none => runRuleSet v event ctx rest

/-- `ComplianceValidator::validate_with_rule_set` (`validator.rs` lines
60-89): unknown set name fails; otherwise the listed ids are processed in
declared order by the loop `runRuleSet` and the aggregated violations are
returned. -/
def ComplianceValidator.validate_with_rule_set (v : ComplianceValidator)
    (event : LedgerEvent) (rule_set_name : String) :
    Except String (List Violation) :=
  match v.rule_sets.lookup rule_set_name with
  | some rule_ids => .ok (runRuleSet v event ValidationContext.new rule_ids).2
  | none => .error ("Rule set not found: " ++ rule_set_name)

/-- `AmountLimitRule` from `validator.rs`. -/
structure AmountLimitRule where
  limit : ℚ
  currency : String

/-- `AmountLimitRule::new`. -/
def AmountLimitRule.new (limit : ℚ) (currency : String) : AmountLimitRule :=
  ⟨limit, currency⟩

/-- `AmountLimitRule::get_rule_id`. -/
def AmountLimitRule.get_rule_id (_ : AmountLimitRule) : String := "AMOUNT_LIMIT"

/-- `AmountLimitRule::get_severity`. -/
def AmountLimitRule.get_severity (_ : AmountLimitRule) : RuleSeverity := .Error

/-- `AmountLimitRule::evaluate` (`validator.rs` lines 141-163): fires only
on `FinancialTransaction` events whose `currency` field equals the rule's
currency and whose `amount.amount` strictly exceeds the limit. -/
def AmountLimitRule.evaluate (r : AmountLimitRule) (event : LedgerEvent)
    (_ : ValidationContext) : Except String (List Violation) :=
  match event with
  | .FinancialTransaction tx =>
      if tx.currency == r.currency && decide (r.limit < tx.amount.amount) then
        .ok [{ rule_id := r.get_rule_id
               severity := r.get_severity
               message := "Transaction amount " ++ toString tx.amount.amount
                 ++ " " ++ tx.currency ++ " exceeds limit of "
                 ++ toString r.limit ++ " " ++ r.currency
               evidence := Json.obj
                 [("transaction_amount", Json.num tx.amount.amount),
                  ("currency", Json.str tx.currency),
                  ("limit", Json.num r.limit)] }]
      else
        .ok []
  | _ => .ok []

/-- The `Rule` trait object for an `AmountLimitRule`. -/
def AmountLimitRule.toRule (r : AmountLimitRule) : Rule :=
  { evaluate := r.evaluate
    get_rule_id := r.get_rule_id
    get_severity := r.get_severity }

/-! ## Ledger core (`src/core/ledger.rs`) -/

/-- `LedgerError` from `ledger.rs` (`StorageError` payload modelled as its
message string). -/
inductive LedgerError where
  | ComplianceViolation (msg : String)
  | StorageError (e : String)
  | ValidationError (msg : String)
  | LedgerSealed
deriving DecidableEq, Repr

/-- `LedgerRecord` from `ledger.rs`. -/
structure LedgerRecord where
  event_id : String
  event : LedgerEvent
  metadata : Json
  timestamp : Nat
  previous_hash : Option String
  chain_id : String
  signature : Option String

/-- `DigitalLedger` from `ledger.rs`. The `Arc<dyn AppendOnlyStorage>`
collaborator is external to the repository; per §6 of the spec it is
durable ordered storage, modelled here as the list of appended records in
append order. `is_sealed` is the `RwLock<bool>` flag. -/
structure DigitalLedger where
  storage : List LedgerRecord
  validator : ComplianceValidator
  is_sealed : Bool
  chain_id : String

/-- `DigitalLedger::new` (`ledger.rs` lines 30-41): fresh unsealed ledger
over an empty store. -/
def DigitalLedger.new (validator : ComplianceValidator) (chain_id : String) :
    DigitalLedger :=
  { storage := [], validator := validator, is_sealed := false
    chain_id := chain_id }

/-- A canonical encoding of an event, used as the digest body below. -/
def eventEncoding : LedgerEvent → String
  | .FinancialTransaction tx =>
      "financial_transaction:" ++ tx.transaction_id ++ ":" ++ tx.currency
        ++ ":" ++ toString tx.amount.amount
  | .ComplianceAlert alert => "compliance_alert:" ++ alert.alert_id
  | .AccountCreation acct => "account_creation:" ++ acct.account_id
  | .BalanceAdjustment adj => "balance_adjustment:" ++ adj.adjustment_id
  | .AuditLog log => "audit_log:" ++ log.log_id ++ ":" ++ log.action

/-- Modelled from the spec: `generate_hash_chain` lives in
`src/utils/crypto.rs`, which is not among the source files; its call site
(`ledger.rs` line 62) passes only the event, so it is a deterministic
function of the event alone. The concrete digest primitive is out of scope
(§1), so the digest is modelled as a tagged canonical encoding of the
event content. -/
def generate_hash_chain (event : LedgerEvent) : Except String String :=
  .ok ("digest(" ++ eventEncoding event ++ ")")

/-- Modelled from the spec: the store's `get_latest_hash` (§6) returns the
identity hash of the most recently appended record, or none for an empty
chain. -/
def get_latest_hash (storage : List LedgerRecord) : Option String :=
  storage.getLast?.map (fun r => r.event_id)

/-- `DigitalLedger::append_event` (`ledger.rs` lines 43-80): sealed check,
structural validation, compliance check (an `Err` from `validate` maps to
`ComplianceViolation` — note `validate`'s `Ok` payload, the violation
list, is never inspected), digest computation over the event, record
construction with the store's latest hash, append. `chrono::Utc::now()`
is passed in as `now`; storage `append` is the list append (per §6 the
store is append-only ordered storage). Returns the result paired with the
ledger state after the call. -/
def DigitalLedger.append_event (ledger : DigitalLedger) (event : LedgerEvent)
    (metadata : Option Json) (now : Nat) :
    Except LedgerError String × DigitalLedger :=
  if ledger.is_sealed then
    (.error .LedgerSealed, ledger)
  else
    match event.validate with
    | .error e => (.error (.ValidationError e), ledger)
    | .ok () =>
      match ledger.validator.validate event with
      | .error e =>
          (.error (.ComplianceViolation ("Compliance check failed: " ++ e)),
           ledger)
      | .ok _violations =>
        match generate_hash_chain event with
        | .error e => (.error (.StorageError e), ledger)
        | .ok event_hash =>
          let record : LedgerRecord :=
            { event_id := event_hash
              event := event
              metadata := metadata.getD Json.null
              timestamp := now
              previous_hash := get_latest_hash ledger.storage
              chain_id := ledger.chain_id
              signature := none }
          (.ok event_hash, { ledger with storage := ledger.storage ++ [record] })

/-- `DigitalLedger::seal_ledger` (`ledger.rs` lines 98-103): sets the
sealed flag and always returns `Ok(())`. -/
def DigitalLedger.seal_ledger (ledger : DigitalLedger) :
    Except LedgerError Unit × DigitalLedger :=
  (.ok (), { ledger with is_sealed := true })

/-- The operations the Ledger Core exposes (§4.3 / `ledger.rs`). -/
inductive LedgerOp where
  | appendOp (event : LedgerEvent) (metadata : Option Json) (now : Nat)
  | sealOp
  | verifyIntegrityOp
  | getAuditTrailOp (entity_id : Option String) (start_time : Option Nat)
      (end_time : Option Nat)
  | getMerkleRootOp

/-- The state effect of one exposed operation. `verify_integrity`,
`get_audit_trail` and `get_merkle_root` (`ledger.rs` lines 82-96, 105-107)
only delegate to storage reads and never write `is_sealed` or the store,
so they leave the ledger unchanged. -/
def applyOp (ledger : DigitalLedger) : LedgerOp → DigitalLedger
  | .appendOp event metadata now => (ledger.append_event event metadata now).2
  | .sealOp => ledger.seal_ledger.2
  | .verifyIntegrityOp => ledger
  | .getAuditTrailOp _ _ _ => ledger
  | .getMerkleRootOp => ledger

/-- Folding a sequence of operations over a ledger state. -/
def applyOps (ledger : DigitalLedger) : List LedgerOp → DigitalLedger
  | [] => ledger
  | op :: rest => applyOps (applyOp ledger op) rest

/-! ## Concrete fixtures used by the concrete theorems -/

/-- A structurally valid financial-transaction event with the given amount
and currency (the `Money` carries the same currency code). -/
def mkTx (id : String) (amount : ℚ) (curr : String) : LedgerEvent :=
  .FinancialTransaction
    { transaction_id := id
      from_account := "acct-from"
      to_account := "acct-to"
      amount := { amount := amount, currency_code := curr, precision := 2 }
      currency := curr
      description := "transfer"
      metadata := Json.null
      timestamp := 0
      tags := [] }

def tx1500usd : LedgerEvent := mkTx "tx-1" 1500 "USD"

def tx500usd : LedgerEvent := mkTx "tx-2" 500 "USD"

def tx1500eur : LedgerEvent := mkTx "tx-3" 1500 "EUR"

/-- The example rule of claim C6: limit 1000, currency "USD". -/
def amountRule : AmountLimitRule := AmountLimitRule.new 1000 "USD"

/-- A validator whose only registered rule is `amountRule`,
registered under its own id as `add_rule` does. -/
def validatorAL : ComplianceValidator :=
  ComplianceValidator.new.add_rule amountRule.toRule

/-- A fresh ledger gated by `validatorAL`. -/
def ledgerAL : DigitalLedger := DigitalLedger.new validatorAL "chain-1"

/-- A validator with no registered rules. -/
def validatorEmpty : ComplianceValidator := ComplianceValidator.new

/-- A fresh ledger with no compliance rules. -/
def ledgerEmpty : DigitalLedger := DigitalLedger.new validatorEmpty "chain-1"

/-- Two audit-log events used by the hash-chain claims; audit logs pass
structural validation unconditionally. -/
def auditA : LedgerEvent :=
  .AuditLog
    { log_id := "log-A", action := "create", actor := "alice"
      resource := "res-1", changes := Json.null, ip_address := none
      user_agent := none, timestamp := 0 }

def auditB : LedgerEvent :=
  .AuditLog
    { log_id := "log-B", action := "update", actor := "bob"
      resource := "res-2", changes := Json.null, ip_address := none
      user_agent := none, timestamp := 1 }

/-! ## Spec-side definitions and helper functions for the theorems -/

/-- Modelled from the spec (§3): the variant-specific structural-validity
predicate in the spec's words — non-empty identifier, non-negative
monetary amount, currency code of exactly 3 characters for
`FinancialTransaction` and `AccountCreation`; every other variant passes
unconditionally. -/
def structurallyValidSpec : LedgerEvent → Bool
  | .FinancialTransaction tx =>
      (tx.transaction_id.length != 0) && decide (0 ≤ tx.amount.amount)
        && (tx.amount.currency_code.length == 3)
  | .AccountCreation acct =>
      (acct.account_id.length != 0)
        && decide (0 ≤ acct.initial_balance.amount)
        && (acct.initial_balance.currency_code.length == 3)
  | _ => true

/-- Whether an `append_event` result is the `ComplianceViolation` error. -/
def isComplianceViolationRes : Except LedgerError String → Bool
  | .error (.ComplianceViolation _) => true
  | _ => false

/-- The violations one listed rule id contributes in
`validate_with_rule_set`: an unregistered id contributes nothing, a
registered rule contributes its violations, or one synthetic `Critical`
violation under the listed id if its evaluation fails. -/
def ruleContribution (v : ComplianceValidator) (event : LedgerEvent)
    (ctx : ValidationContext) (i : String) : List Violation :=
  match v.rules.lookup i with
  | some rule =>
      match rule.evaluate event ctx with
      | .ok vs => vs
      | .error e => [syntheticViolation i e]
  | none => []

/-- The violations a registered rule contributes when its evaluation
succeeds (used to describe `validate`'s aggregate for non-failing rules). -/
def ruleOkViolations (event : LedgerEvent) (ctx : ValidationContext)
    (p : String × Rule) : List Violation :=
  match p.2.evaluate event ctx with
  | .ok vs => vs
  | .error _ => []

/-- The `validate` loop distributes over concatenation of the registry. -/
theorem runRules_append (event : LedgerEvent) (ctx : ValidationContext)
    (l1 l2 : List (String × Rule)) :
    runRules event ctx (l1 ++ l2) = runRules event ctx l1 ++ runRules event ctx l2 := by
  induction l1 with
  | nil => rfl
  | cons p rest ih => simp [runRules, ih, List.append_assoc]

/-- Over a registry segment whose rules all evaluate successfully, the
`validate` loop aggregates exactly the rules' own violation lists. -/
theorem runRules_all_ok (event : LedgerEvent) (ctx : ValidationContext)
    (l : List (String × Rule))
    (h : ∀ p ∈ l, (p.2.evaluate event ctx).isOk = true) :
    runRules event ctx l = l.flatMap (ruleOkViolations event ctx) := by
  induction l with
  | nil => rfl
  | cons p rest ih =>
      have hp : (p.2.evaluate event ctx).isOk = true := h p (by simp)
      have hrest : ∀ q ∈ rest, (q.2.evaluate event ctx).isOk = true :=
        fun q hq => h q (by simp [hq])
      cases he : p.2.evaluate event ctx with
      | ok vs => simp [runRules, he, ih hrest, ruleOkViolations, List.flatMap]
      | error e => rw [he] at hp; simp [Except.isOk, Except.toBool] at hp

/-- The rule-set loop invokes exactly the listed ids that are registered. -/
theorem runRuleSet_trace (v : ComplianceValidator) (event : LedgerEvent)
    (ctx : ValidationContext) (ids : List String) :
    (runRuleSet v event ctx ids).1
      = ids.filter (fun i => (v.rules.lookup i).isSome) := by
  induction ids with
  | nil => rfl
  | cons i rest ih =>
      cases h : v.rules.lookup i with
      | some rule => simp [runRuleSet, h, ih]
      | none => simp [runRuleSet, h, ih]

/-- The rule-set loop aggregates the per-listed-id contributions in
declared order. -/
theorem runRuleSet_violations (v : ComplianceValidator) (event : LedgerEvent)
    (ctx : ValidationContext) (ids : List String) :
    (runRuleSet v event ctx ids).2
      = ids.flatMap (ruleContribution v event ctx) := by
  induction ids with
  | nil => rfl
  | cons i rest ih =>
      cases h : v.rules.lookup i with
      | some rule => simp [runRuleSet, h, ih, ruleContribution]
      | none => simp [runRuleSet, h, ih, ruleContribution]

/-- Any operation applied to a sealed ledger leaves it sealed. -/
theorem applyOp_sealed (ledger : DigitalLedger) (op : LedgerOp)
    (h : ledger.is_sealed = true) : (applyOp ledger op).is_sealed = true := by
  cases op with
  | appendOp event metadata now =>
      simp [applyOp, DigitalLedger.append_event, h]
  | sealOp => rfl
  | verifyIntegrityOp => exact h
  | getAuditTrailOp a b c => exact h
  | getMerkleRootOp => exact h

/-- Any sequence of operations applied to a sealed ledger leaves it
sealed. -/
theorem applyOps_sealed (ops : List LedgerOp) (ledger : DigitalLedger)
    (h : ledger.is_sealed = true) : (applyOps ledger ops).is_sealed = true := by
  induction ops generalizing ledger with
  | nil => exact h
  | cons op rest ih => exact ih _ (applyOp_sealed ledger op h)

/-! ## Claim theorems -/

/-- C6: an `AmountLimitRule` with limit 1000 and currency "USD" yields, on
a 1500 USD financial transaction, exactly one violation, of severity
`Error` and rule id "AMOUNT_LIMIT"; on an otherwise identical 500 USD
transaction it yields zero violations; on 1500 EUR it yields zero
violations (currency mismatch). -/
theorem amount_limit_rule_examples :
    (amountRule.evaluate tx1500usd ValidationContext.new).map
        (List.map (fun v => (v.rule_id, v.severity)))
      = .ok [("AMOUNT_LIMIT", RuleSeverity.Error)]
    ∧ amountRule.evaluate tx500usd ValidationContext.new = .ok []
    ∧ amountRule.evaluate tx1500eur ValidationContext.new = .ok [] :=
  ⟨rfl, rfl, rfl⟩

/-- C1, evaluated at the failing input: with the amount-limit rule
registered, the 1500 USD transaction produces one violation of severity
`Error`, which meets the default blocking threshold `Error` — yet
`append_event` admits the event: it returns `Ok` and appends the record,
because the violation list `validate` returns is never inspected for
severity. -/
theorem append_event_admits_blocking_violation :
    (validatorAL.validate tx1500usd).map
        (List.map (fun v => (v.rule_id, v.severity)))
      = .ok [("AMOUNT_LIMIT", RuleSeverity.Error)]
    ∧ RuleSeverity.rank defaultBlockingThreshold
        ≤ RuleSeverity.rank RuleSeverity.Error
    ∧ (ledgerAL.append_event tx1500usd none 0).1.isOk = true
    ∧ (ledgerAL.append_event tx1500usd none 0).2.storage.length = 1 :=
  ⟨rfl, by decide, rfl, rfl⟩

/-- C2, evaluated at the failing input: append `auditA` then `auditB` on
one run, and `auditB` alone on a run with the earlier record removed. The
identity hash returned (and stored) for `auditB` is the same in both runs
even though its `previous_hash` link differs — the digest is computed over
the event alone, so altering or removing an earlier record does not change
the digest of any later record. -/
theorem identity_hash_independent_of_earlier_records :
    ((ledgerEmpty.append_event auditA none 0).2.append_event auditB none 1).1
      = (ledgerEmpty.append_event auditB none 1).1
    ∧ (((ledgerEmpty.append_event auditA none 0).2.append_event auditB
          none 1).2.storage.getLast?.map (fun r => r.previous_hash))
      ≠ ((ledgerEmpty.append_event auditB
          none 1).2.storage.getLast?.map (fun r => r.previous_hash)) :=
  ⟨rfl, by decide⟩

/-- C10: `ComplianceValidator::validate` returns `Ok` for every event and
every set of registered rules, so the `ComplianceViolation` branch of
`append_event` is unreachable: `append_event` never returns
`ComplianceViolation`, no matter what violations the rules produce. -/
theorem compliance_violation_branch_unreachable (v : ComplianceValidator)
    (ledger : DigitalLedger) (event : LedgerEvent) (metadata : Option Json)
    (now : Nat) :
    (v.validate event).isOk = true
    ∧ isComplianceViolationRes (ledger.append_event event metadata now).1
        = false := by
  refine ⟨rfl, ?_⟩
  by_cases hs : ledger.is_sealed
  · simp [DigitalLedger.append_event, hs, isComplianceViolationRes]
  · cases hv : event.validate with
    | error e =>
        simp [DigitalLedger.append_event, hs, hv, isComplianceViolationRes]
    | ok u =>
        cases u
        simp [DigitalLedger.append_event, hs, hv, ComplianceValidator.validate,
          generate_hash_chain, isComplianceViolationRes]

/-- C9: the sealed state is one-way and terminal — once the sealed flag is
set, it remains set across every sequence of ledger-core operations. -/
theorem sealed_flag_is_terminal (ledger : DigitalLedger) (ops : List LedgerOp)
    (h : ledger.is_sealed = true) : (applyOps ledger ops).is_sealed = true :=
  applyOps_sealed ops ledger h

/-- Witness for C9 at a concrete input: a sealed empty ledger stays sealed
across an append attempt, a second seal and a read. -/
theorem sealed_flag_is_terminal_witness :
    ledgerEmpty.seal_ledger.2.is_sealed = true
    ∧ (applyOps ledgerEmpty.seal_ledger.2
        [.appendOp auditA none 0, .sealOp, .verifyIntegrityOp]).is_sealed
        = true :=
  ⟨rfl, sealed_flag_is_terminal ledgerEmpty.seal_ledger.2
    [.appendOp auditA none 0, .sealOp, .verifyIntegrityOp] rfl⟩

/-- C3: after `seal_ledger` returns — and after any further sequence of
core operations — every `append_event` on the chain returns `LedgerSealed`
and appends nothing (the state is returned unchanged); sealing an
already-sealed chain succeeds as a no-op. -/
theorem seal_rejects_append_and_reseal_is_noop (ledger : DigitalLedger)
    (ops : List LedgerOp) (event : LedgerEvent) (metadata : Option Json)
    (now : Nat) :
    (applyOps ledger.seal_ledger.2 ops).append_event event metadata now
      = (.error .LedgerSealed, applyOps ledger.seal_ledger.2 ops)
    ∧ ledger.seal_ledger.2.seal_ledger = (.ok (), ledger.seal_ledger.2) := by
  constructor
  · have hs : (applyOps ledger.seal_ledger.2 ops).is_sealed = true :=
      applyOps_sealed ops _ rfl
    simp [DigitalLedger.append_event, hs]
  · simp [DigitalLedger.seal_ledger]

/-- C7: structural validation is variant-specific — `ComplianceAlert`,
`BalanceAdjustment` and `AuditLog` events pass unconditionally, while
`FinancialTransaction` and `AccountCreation` events pass exactly when
their identifier is non-empty, their monetary amount is non-negative and
their `Money` currency code has exactly 3 characters. -/
theorem validate_matches_variant_spec (e : LedgerEvent) :
    e.validate.isOk = structurallyValidSpec e := by
  cases e with
  | FinancialTransaction tx =>
      unfold LedgerEvent.validate FinancialTransaction.validate Money.validate
        structurallyValidSpec
      by_cases h1 : tx.transaction_id.length < 1
      · have h0 : tx.transaction_id.length = 0 := by omega
        simp [h1, h0, Except.isOk, Except.toBool]
      · have h0 : tx.transaction_id.length ≠ 0 := by omega
        by_cases hb : (decide (0 ≤ tx.amount.amount)
            && (tx.amount.currency_code.length == 3)) = true
        · simp [h1, hb, h0, Bool.and_assoc, Except.isOk, Except.toBool]
        · simp [h1, hb, h0, Bool.and_assoc, Except.isOk, Except.toBool]
  | AccountCreation acct =>
      unfold LedgerEvent.validate AccountCreation.validate Money.validate
        structurallyValidSpec
      by_cases h1 : acct.account_id.length < 1
      · have h0 : acct.account_id.length = 0 := by omega
        simp [h1, h0, Except.isOk, Except.toBool]
      · have h0 : acct.account_id.length ≠ 0 := by omega
        by_cases hb : (decide (0 ≤ acct.initial_balance.amount)
            && (acct.initial_balance.currency_code.length == 3)) = true
        · simp [h1, hb, h0, Bool.and_assoc, Except.isOk, Except.toBool]
        · simp [h1, hb, h0, Bool.and_assoc, Except.isOk, Except.toBool]
  | ComplianceAlert alert => rfl
  | BalanceAdjustment adj => rfl
  | AuditLog log => rfl

/-- C8: whenever `append_event` returns a `ValidationError` or a
`ComplianceViolation` error, the ledger is returned unchanged — in
particular no record is appended and the stored sequence is untouched by
that call. -/
theorem append_event_rejection_persists_nothing (ledger : DigitalLedger)
    (event : LedgerEvent) (metadata : Option Json) (now : Nat) (m : String)
    (h : (ledger.append_event event metadata now).1
          = .error (.ValidationError m)
       ∨ (ledger.append_event event metadata now).1
          = .error (.ComplianceViolation m)) :
    (ledger.append_event event metadata now).2 = ledger := by
  by_cases hs : ledger.is_sealed
  · simp [DigitalLedger.append_event, hs]
  · cases hv : event.validate with
    | error e => simp [DigitalLedger.append_event, hs, hv]
    | ok u =>
        cases u
        simp [DigitalLedger.append_event, hs, hv,
          ComplianceValidator.validate, generate_hash_chain] at h

/-- A structurally invalid event: empty transaction id. -/
def txBad : LedgerEvent := mkTx "" 100 "USD"

/-- Witness for C8 at a concrete input: an empty transaction id makes
`append_event` return `ValidationError`, and the ledger is unchanged. -/
theorem append_event_rejection_witness :
    (ledgerEmpty.append_event txBad none 0).1
      = .error (.ValidationError
          "Financial transaction validation failed: transaction_id: length(min 1)")
    ∧ (ledgerEmpty.append_event txBad none 0).2 = ledgerEmpty :=
  ⟨rfl, append_event_rejection_persists_nothing ledgerEmpty txBad none 0
    "Financial transaction validation failed: transaction_id: length(min 1)"
    (Or.inl rfl)⟩

/-- A validator with no registered rules but a rule set "S" listing the
(unregistered) id "AMOUNT_LIMIT". -/
def validatorGhost : ComplianceValidator :=
  ComplianceValidator.new.create_rule_set "S" ["AMOUNT_LIMIT"]

/-- C4 counterexample: "S" is a registered rule set listing exactly one
rule id, but `validate_with_rule_set` succeeds evaluating no rule at all —
the listed id has no registered rule and is silently skipped, so the rules
evaluated ([]) are fewer than the rules listed (["AMOUNT_LIMIT"]),
refuting "no more and no fewer". -/
theorem rule_set_silently_skips_unregistered :
    validatorGhost.rule_sets.lookup "S" = some ["AMOUNT_LIMIT"]
    ∧ (runRuleSet validatorGhost auditA ValidationContext.new
        ["AMOUNT_LIMIT"]).1 = []
    ∧ validatorGhost.validate_with_rule_set auditA "S" = .ok []
    ∧ ([] : List String) ≠ ["AMOUNT_LIMIT"] :=
  ⟨rfl, rfl, rfl, by decide⟩

/-- C4 amended: with a registered rule set name, `validate_with_rule_set`
evaluates, in declared order, exactly those listed rules that are
registered — a listed id with no registered rule is silently skipped — and
aggregates their violations; with an unregistered name it fails with the
rule-set-not-found error. -/
theorem validate_with_rule_set_spec (v : ComplianceValidator)
    (event : LedgerEvent) (name : String) :
    (v.rule_sets.lookup name = none →
      v.validate_with_rule_set event name
        = .error ("Rule set not found: " ++ name))
    ∧ ∀ ids, v.rule_sets.lookup name = some ids →
        (runRuleSet v event ValidationContext.new ids).1
          = ids.filter (fun i => (v.rules.lookup i).isSome)
        ∧ v.validate_with_rule_set event name
          = .ok (ids.flatMap (ruleContribution v event ValidationContext.new)) := by
  constructor
  · intro h
    simp [ComplianceValidator.validate_with_rule_set, h]
  · intro ids h
    refine ⟨runRuleSet_trace v event _ ids, ?_⟩
    simp [ComplianceValidator.validate_with_rule_set, h, runRuleSet_violations]

/-- A validator with the amount-limit rule registered and a rule set
listing it together with an unregistered id. -/
def validatorHW : ComplianceValidator :=
  (ComplianceValidator.new.add_rule amountRule.toRule).create_rule_set
    "high-value" ["AMOUNT_LIMIT", "GHOST"]

/-- Witness for C4's amended claim at concrete inputs: an unknown set name
errors; the set "high-value" evaluates only its registered listed rule and
yields that rule's violation. -/
theorem validate_with_rule_set_spec_witness :
    validatorHW.validate_with_rule_set tx1500usd "missing"
      = .error ("Rule set not found: " ++ "missing")
    ∧ (runRuleSet validatorHW tx1500usd ValidationContext.new
        ["AMOUNT_LIMIT", "GHOST"]).1 = ["AMOUNT_LIMIT"]
    ∧ (validatorHW.validate_with_rule_set tx1500usd "high-value").map
        (List.map (fun v => (v.rule_id, v.severity)))
      = .ok [("AMOUNT_LIMIT", RuleSeverity.Error)] := by
  refine ⟨(validate_with_rule_set_spec validatorHW tx1500usd "missing").1 rfl,
    ((validate_with_rule_set_spec validatorHW tx1500usd "high-value").2
      ["AMOUNT_LIMIT", "GHOST"] rfl).1, ?_⟩
  rw [((validate_with_rule_set_spec validatorHW tx1500usd "high-value").2
    ["AMOUNT_LIMIT", "GHOST"] rfl).2]
  rfl

/-- A rule whose evaluation always succeeds with one advisory finding. -/
def ruleAdvisory : Rule :=
  { evaluate := fun _ _ =>
      .ok [{ rule_id := "ADVISORY", severity := .Warning
             message := "advisory finding", evidence := Json.null }]
    get_rule_id := "ADVISORY"
    get_severity := .Warning }

/-- A rule whose evaluation always fails with an internal error. -/
def ruleBroken : Rule :=
  { evaluate := fun _ _ => .error "backend unavailable"
    get_rule_id := "BROKEN"
    get_severity := .Error }

/-- A validator registering an ok rule, a failing rule and the
amount-limit rule, in that order. -/
def validatorMixed : ComplianceValidator :=
  ((ComplianceValidator.new.add_rule ruleAdvisory).add_rule
    ruleBroken).add_rule amountRule.toRule

/-- C5: if exactly one registered rule's evaluation returns an internal
error while every other registered rule returns a violation list, then
`validate` still succeeds, and its result is the other rules' own
violations, in registry order, with exactly one synthetic `Critical`
violation — carrying the failing rule's id and the error text — in place
of the failing rule's contribution. -/
theorem validate_isolates_single_rule_failure (v : ComplianceValidator)
    (event : LedgerEvent) (pre post : List (String × Rule)) (key : String)
    (r : Rule) (msg : String)
    (hsplit : v.rules = pre ++ (key, r) :: post)
    (herr : r.evaluate event ValidationContext.new = .error msg)
    (hok : ∀ p ∈ pre ++ post,
      (p.2.evaluate event ValidationContext.new).isOk = true) :
    v.validate event
      = .ok (pre.flatMap (ruleOkViolations event ValidationContext.new)
          ++ syntheticViolation r.get_rule_id msg
            :: post.flatMap (ruleOkViolations event ValidationContext.new)) := by
  have hpre : ∀ p ∈ pre,
      (p.2.evaluate event ValidationContext.new).isOk = true :=
    fun p hp => hok p (List.mem_append_left _ hp)
  have hpost : ∀ p ∈ post,
      (p.2.evaluate event ValidationContext.new).isOk = true :=
    fun p hp => hok p (List.mem_append_right _ hp)
  unfold ComplianceValidator.validate
  rw [hsplit, runRules_append, runRules_all_ok _ _ _ hpre]
  simp [runRules, herr, runRules_all_ok _ _ _ hpost]

/-- Witness for C5 at a concrete input: with `validatorMixed`, whose
middle rule fails internally, `validate` on an audit-log event returns the
advisory finding, then exactly one synthetic `Critical` violation for the
failing rule (the amount-limit rule contributes nothing on this event). -/
theorem validate_isolates_single_rule_failure_witness :
    validatorMixed.validate auditA
      = .ok [{ rule_id := "ADVISORY", severity := .Warning
               message := "advisory finding", evidence := Json.null },
             syntheticViolation "BROKEN" "backend unavailable"] :=
  validate_isolates_single_rule_failure validatorMixed auditA
    [("ADVISORY", ruleAdvisory)] [("AMOUNT_LIMIT", amountRule.toRule)]
    "BROKEN" ruleBroken "backend unavailable" rfl rfl
    (by intro p hp
        simp only [List.mem_append, List.mem_singleton] at hp
        rcases hp with h | h <;> subst h <;> rfl)

end LedgerCore
